import Mathlib

/-!
Verification of the firecracker-agent host service.

This file gives a shallow embedding, in Lean 4, of the parts of the
firecracker-agent repository that the specification talks about:

- the network attachment manager (`internal/network/manager.go`):
  deterministic MAC derivation and TAP device naming;
- the YAML configuration loader (`pkg/config/config.go`): the defaulting
  pass applied after parsing;
- the event bus (`internal/agent/server.go`): bounded per-subscriber
  queues with non-blocking drop-on-full broadcast;
- the gRPC surface (the agent package's request handlers): validation,
  event publication, and mapping to the orchestrator;
- the VM lifecycle orchestrator (`internal/firecracker/manager.go`):
  transactional create with a LIFO unwind stack, stop, delete, and the
  read-side state projection.

External effects (filesystem, subprocesses, the REST control socket, the
OS network control plane) are modelled by an `Env` record of call results
supplied by the environment; Go panics and errors are modelled with
`Option` and `Except`.  Theorems about the specification's claims follow
the definitions.
-/

/-! ### String bytes and hex formatting -/

/-- UTF-8 encoding of a Unicode code point, as a list of byte values.
Mirrors how the Go runtime lays out `string` bytes. -/
def utf8Bytes (c : Nat) : List Nat :=
  if c < 128 then [c]
  else if c < 2048 then [192 + c / 64, 128 + c % 64]
  else if c < 65536 then [224 + c / 4096, 128 + c / 64 % 64, 128 + c % 64]
  else [240 + c / 262144, 128 + c / 4096 % 64, 128 + c / 64 % 64, 128 + c % 64]

/-- Bytes of a string as Go sees them: the UTF-8 encoding of its code
points.  Go's `s[i]` and `len(s)` operate on exactly this byte list. -/
def strBytes (s : String) : List Nat := s.data.flatMap (fun ch => utf8Bytes ch.toNat)

/-- Lowercase hexadecimal digit character for a value below 16, as
produced by Go's `%x` format. -/
def hexDigitChar (n : Nat) : Char :=
  if n < 10 then Char.ofNat (48 + n) else Char.ofNat (87 + n)

/-- Go `fmt.Sprintf("%02x", n)` for a byte value `n < 256`: exactly two
lowercase hex digits. -/
def hex02 (n : Nat) : String :=
  String.mk [hexDigitChar (n / 16), hexDigitChar (n % 16)]

/-! ### Network attachment manager (`internal/network/manager.go`) -/

/-- Embeds `Manager.GenerateMAC` (internal/network/manager.go:130-145).
Starting from `"02:FC"`, for `i = 0..3` it appends
`":" ++ hex(vmID[2i] xor vmID[2i+1])` when byte index `2i+1` is inside
the id, and `":00"` otherwise. -/
def GenerateMAC (vmID : String) : String :=
  let bs := strBytes vmID
  (List.range 4).foldl
    (fun mac i =>
      if 2 * i + 1 < bs.length then
        mac ++ ":" ++ hex02 (Nat.xor (bs.getD (2 * i) 0) (bs.getD (2 * i + 1) 0))
      else
        mac ++ ":00")
    "02:FC"

/-- Embeds the TAP name computation of `Manager.CreateTAPDevice`
(internal/network/manager.go:31): `fmt.Sprintf("%s-%s", m.tapPrefix, vmID[:8])`.
The Go slice `vmID[:8]` panics when the id has fewer than 8 bytes; the
panic is modelled as `none`.  The name is returned as its byte list
(`45` is the byte of the dash). -/
def CreateTAPDeviceName (tapPfx : String) (vmID : String) : Option (List Nat) :=
  if 8 ≤ (strBytes vmID).length then
    some (strBytes tapPfx ++ [45] ++ (strBytes vmID).take 8)
  else
    none

/-- Decides whether a character is one of `[0-9a-f]`. -/
def isLowerHexDigit (c : Char) : Bool :=
  decide (48 ≤ c.toNat ∧ c.toNat ≤ 57) || decide (97 ≤ c.toNat ∧ c.toNat ≤ 102)

/-- Checks that a character list is `n` repetitions of `:[0-9a-f]{2}`. -/
def macGroupsOK : List Char → Nat → Bool
  | cs, 0 => cs.isEmpty
  | c :: h1 :: h2 :: rest, n + 1 =>
      c = ':' && isLowerHexDigit h1 && isLowerHexDigit h2 && macGroupsOK rest n
  | _, _ + 1 => false

/-- Decides the specification's MAC regex `^02:FC(:[0-9a-f]{2}){4}$`. -/
def matchesMacShape (s : String) : Bool :=
  match s.data with
  | '0' :: '2' :: ':' :: 'F' :: 'C' :: rest => macGroupsOK rest 4
  | _ => false

/-- Octet `i` of the derived MAC as the specification describes it:
the XOR of bytes `2i` and `2i+1` of the id when index `2i+1` is within
the id, and `00` otherwise. -/
def specMacOctet (bs : List Nat) (i : Nat) : String :=
  if 2 * i + 1 < bs.length then hex02 (Nat.xor (bs.getD (2 * i) 0) (bs.getD (2 * i + 1) 0))
  else "00"

/-! ### Configuration loading (`pkg/config/config.go`) -/

structure ServerConfig where
  host : String
  port : Int
  deriving DecidableEq, Repr

structure FirecrackerConfig where
  binaryPath : String
  jailerPath : String
  kernelPath : String
  rootfsPath : String
  useJailer : Bool
  jailUID : Int
  jailGID : Int
  deriving DecidableEq, Repr

/-- Network section of the configuration.  `tapPfx` stands for the
`tap_prefix` key. -/
structure NetworkConfig where
  bridgeName : String
  tapPfx : String
  deriving DecidableEq, Repr

structure StorageConfig where
  vmsDir : String
  useOverlay : Bool
  deriving DecidableEq, Repr

structure MonitoringConfig where
  enabled : Bool
  metricsPort : Int
  deriving DecidableEq, Repr

structure LogConfig where
  level : String
  format : String
  deriving DecidableEq, Repr

/-- Embeds `config.Config` (pkg/config/config.go). -/
structure Config where
  server : ServerConfig
  firecracker : FirecrackerConfig
  network : NetworkConfig
  storage : StorageConfig
  monitoring : MonitoringConfig
  log : LogConfig
  deriving DecidableEq, Repr

/-- Server and log defaults of `config.Load` (pkg/config/config.go:69-80). -/
def applyServerLogDefaults (cfg : Config) : Config :=
  let cfg := if cfg.server.host = "" then { cfg with server.host := "0.0.0.0" } else cfg
  let cfg := if cfg.server.port = 0 then { cfg with server.port := 50051 } else cfg
  let cfg := if cfg.log.level = "" then { cfg with log.level := "info" } else cfg
  let cfg := if cfg.log.format = "" then { cfg with log.format := "json" } else cfg
  cfg

/-- Network, storage and monitoring defaults of `config.Load`
(pkg/config/config.go:81-92). -/
def applyNetworkStorageDefaults (cfg : Config) : Config :=
  let cfg := if cfg.network.bridgeName = "" then { cfg with network.bridgeName := "br0" } else cfg
  let cfg := if cfg.network.tapPfx = "" then { cfg with network.tapPfx := "vmtap" } else cfg
  let cfg := if cfg.storage.vmsDir = "" then { cfg with storage.vmsDir := "/srv/firecracker/vms" } else cfg
  let cfg := if cfg.monitoring.metricsPort = 0 then { cfg with monitoring.metricsPort := 9090 } else cfg
  cfg

/-- Jailer defaults of `config.Load` (pkg/config/config.go:93-100).
`use_jailer` is assigned `true` unconditionally. -/
def applyJailerDefaults (cfg : Config) : Config :=
  let cfg := { cfg with firecracker.useJailer := true }
  let cfg := if cfg.firecracker.jailUID = 0 then { cfg with firecracker.jailUID := 1000 } else cfg
  let cfg := if cfg.firecracker.jailGID = 0 then { cfg with firecracker.jailGID := 1000 } else cfg
  cfg

/-- Embeds the defaulting pass of `config.Load`
(pkg/config/config.go:68-101), applied to the struct produced by YAML
unmarshalling, in source order.  Go zero values are `""`, `0`, `false`. -/
def applyDefaults (cfg : Config) : Config :=
  applyJailerDefaults (applyNetworkStorageDefaults (applyServerLogDefaults cfg))

/-- Embeds `config.Load` (pkg/config/config.go:57-103) after the two
external effects (file read and YAML unmarshal), whose combined outcome
is the argument: an error, or the parsed struct. -/
def load (parsed : Except String Config) : Except String Config :=
  parsed.map applyDefaults

/-! ### VM states and events (proto enums, used across components) -/

inductive VMState where
  | unspecified
  | creating
  | running
  | stopping
  | stopped
  | deleting
  | error
  deriving DecidableEq, Repr

inductive EventType where
  | unspecified
  | created
  | started
  | stopped
  | deleted
  | error
  deriving DecidableEq, Repr

/-- Embeds `pb.VMEvent`. -/
structure VMEvent where
  vmId : String
  state : VMState
  message : String
  timestamp : Int
  eventType : EventType
  deriving DecidableEq, Repr

/-! ### Event bus (`internal/agent/server.go`) -/

/-- Capacity of each subscriber channel: `make(chan *pb.VMEvent, 100)`
in `EventStream.Subscribe` (internal/agent/server.go:98). -/
def chanCap : Nat := 100

/-- Embeds `EventStream` (internal/agent/server.go:81-84).  Each
subscriber's bounded channel is modelled by the list of events queued in
it, oldest first. -/
structure EventStream where
  subscribers : List (String × List VMEvent)
  deriving DecidableEq, Repr

/-- Embeds `EventStream.Subscribe` (internal/agent/server.go:94-101):
a fresh empty channel is stored under the id, replacing any previous
entry (Go map assignment). -/
def subscribe (es : EventStream) (id : String) : EventStream :=
  if (es.subscribers.lookup id).isSome then
    ⟨es.subscribers.map (fun p => if p.1 = id then (p.1, []) else p)⟩
  else
    ⟨(id, []) :: es.subscribers⟩

/-- Embeds `EventStream.Unsubscribe` (internal/agent/server.go:104-112):
the entry is removed (the channel close is an external effect). -/
def unsubscribe (es : EventStream) (id : String) : EventStream :=
  ⟨es.subscribers.filter (fun p => p.1 ≠ id)⟩

/-- Non-blocking send on one bounded channel: the `select`/`default`
in `Broadcast`.  A full channel drops the event. -/
def trySend (q : List VMEvent) (e : VMEvent) : List VMEvent :=
  if q.length < chanCap then q ++ [e] else q

/-- Embeds `EventStream.Broadcast` (internal/agent/server.go:115-126):
a non-blocking send is attempted to every subscriber. -/
def broadcast (es : EventStream) (e : VMEvent) : EventStream :=
  ⟨es.subscribers.map (fun p => (p.1, trySend p.2 e))⟩

/-! ### gRPC request handlers (agent package, `CreateVM` .. `DeleteVM`) -/

/-- Embeds `pb.CreateVMRequest`. -/
structure CreateVMRequest where
  vmId : String
  vcpuCount : Int
  memoryMb : Int
  ipAddress : String
  kernelPath : String
  rootfsPath : String
  metadata : List (String × String)
  deriving DecidableEq, Repr

/-- Embeds `pb.VMInfo`. -/
structure VMInfo where
  vmId : String
  state : VMState
  vcpuCount : Int
  memoryMb : Int
  ipAddress : String
  socketPath : String
  createdAt : Int
  metadata : List (String × String)
  deriving DecidableEq, Repr

inductive RpcCode where
  | invalidArgument
  | notFound
  deriving DecidableEq, Repr

/-- A gRPC error status (`status.Error(code, msg)`). -/
structure RpcStatus where
  code : RpcCode
  message : String
  deriving DecidableEq, Repr

/-- Outcome of a unary handler: a gRPC status error, or a response. -/
inductive HandlerResult (α : Type) where
  | status (s : RpcStatus)
  | resp (a : α)
  deriving DecidableEq, Repr

/-- A handler outcome together with the events it broadcast (in order)
and whether it invoked the orchestrator. -/
structure Handled (α : Type) where
  result : HandlerResult α
  events : List VMEvent
  managerCalled : Bool
  deriving DecidableEq, Repr

structure CreateVMResponse where
  vmId : String
  state : VMState
  socketPath : String
  createdAt : Int
  errorMessage : String
  deriving DecidableEq, Repr

structure StartVMResponse where
  vmId : String
  state : VMState
  errorMessage : String
  deriving DecidableEq, Repr

structure StopVMResponse where
  vmId : String
  state : VMState
  errorMessage : String
  deriving DecidableEq, Repr

structure DeleteVMResponse where
  vmId : String
  success : Bool
  errorMessage : String
  deriving DecidableEq, Repr

/-- Embeds `Server.CreateVM` (agent package).  `mgr` is the outcome of
the orchestrator call `s.fcManager.CreateVM`, `now` the value of
`time.Now().Unix()`. -/
def handleCreateVM (mgr : Except String VMInfo) (now : Int) (req : CreateVMRequest) :
    Handled CreateVMResponse :=
  if req.vmId = "" then
    ⟨.status ⟨.invalidArgument, "vm_id is required"⟩, [], false⟩
  else if req.vcpuCount < 1 ∨ 32 < req.vcpuCount then
    ⟨.status ⟨.invalidArgument, "vcpu_count must be between 1 and 32"⟩, [], false⟩
  else if req.memoryMb < 128 then
    ⟨.status ⟨.invalidArgument, "memory_mb must be at least 128"⟩, [], false⟩
  else
    match mgr with
    | .error e =>
        ⟨.resp ⟨req.vmId, .error, "", 0, e⟩,
         [⟨req.vmId, .error, e, now, .error⟩], true⟩
    | .ok info =>
        ⟨.resp ⟨info.vmId, info.state, info.socketPath, info.createdAt, ""⟩,
         [⟨req.vmId, .running, "VM created successfully", now, .created⟩], true⟩

/-- Embeds `Server.StartVM` (agent package). -/
def handleStartVM (mgr : Option String) (now : Int) (vmId : String) :
    Handled StartVMResponse :=
  if vmId = "" then
    ⟨.status ⟨.invalidArgument, "vm_id is required"⟩, [], false⟩
  else
    match mgr with
    | some e =>
        ⟨.resp ⟨vmId, .error, e⟩, [⟨vmId, .error, e, now, .error⟩], true⟩
    | none =>
        ⟨.resp ⟨vmId, .running, ""⟩, [⟨vmId, .running, "VM started", now, .started⟩], true⟩

/-- Embeds `Server.StopVM` (agent package). -/
def handleStopVM (mgr : Option String) (now : Int) (vmId : String) (_force : Bool) :
    Handled StopVMResponse :=
  if vmId = "" then
    ⟨.status ⟨.invalidArgument, "vm_id is required"⟩, [], false⟩
  else
    match mgr with
    | some e =>
        ⟨.resp ⟨vmId, .error, e⟩, [⟨vmId, .error, e, now, .error⟩], true⟩
    | none =>
        ⟨.resp ⟨vmId, .stopped, ""⟩, [⟨vmId, .stopped, "VM stopped", now, .stopped⟩], true⟩

/-- Embeds `Server.DeleteVM` (agent package).  On a manager error the
handler only logs and answers `success=false`; no event is broadcast. -/
def handleDeleteVM (mgr : Option String) (now : Int) (vmId : String) :
    Handled DeleteVMResponse :=
  if vmId = "" then
    ⟨.status ⟨.invalidArgument, "vm_id is required"⟩, [], false⟩
  else
    match mgr with
    | some e =>
        ⟨.resp ⟨vmId, false, e⟩, [], true⟩
    | none =>
        ⟨.resp ⟨vmId, true, ""⟩, [⟨vmId, .deleting, "VM deleted", now, .deleted⟩], true⟩

/-! ### VM lifecycle orchestrator (`internal/firecracker/manager.go`) -/

deriving instance DecidableEq for Except

/-- Manager-side configuration, as used by `Manager` in
`internal/firecracker/manager.go`.  In that variant of the source
`use_jailer` is a nullable boolean (`*bool`), modelled by `Option Bool`;
the jail branch is taken when it is non-nil and true. -/
structure ManagerConfig where
  binaryPath : String
  jailerPath : String
  kernelPath : String
  rootfsPath : String
  useJailer : Option Bool
  jailUID : Int
  jailGID : Int
  bridgeIP : String
  deriving DecidableEq, Repr

/-- Embeds `storage.VMStorage` (internal/storage/manager.go). -/
structure VMStorage where
  vmDir : String
  rootfsPath : String
  kernelPath : String
  socketPath : String
  logPath : String
  deriving DecidableEq, Repr

/-- Embeds `storage.JailPaths` (internal/storage/manager.go). -/
structure JailPaths where
  jailDir : String
  firecrackerBinary : String
  kernelPath : String
  rootfsPath : String
  socketPath : String
  logPath : String
  deriving DecidableEq, Repr

/-- A spawned supervisor process, identified by its pid. -/
structure ProcessHandle where
  pid : Nat
  deriving DecidableEq, Repr

/-- Embeds `BootSource` (firecracker client). -/
structure BootSource where
  kernelImagePath : String
  bootArgs : String
  deriving DecidableEq, Repr

/-- Embeds `MachineConfig` (firecracker client); `smt` is the field the
manager sets to `false` on every create. -/
structure MachineConfig where
  vcpuCount : Int
  memSizeMib : Int
  smt : Bool
  deriving DecidableEq, Repr

/-- Embeds `Drive` (firecracker client). -/
structure Drive where
  driveId : String
  pathOnHost : String
  isRootDevice : Bool
  isReadOnly : Bool
  deriving DecidableEq, Repr

/-- Embeds `NetworkInterface` (firecracker client). -/
structure NetworkInterface where
  ifaceId : String
  hostDevName : String
  guestMAC : String
  deriving DecidableEq, Repr

/-- Results of the external calls a single orchestrator operation can
make: storage preparation, TAP creation, process spawn, the REST
configuration handshake, CIDR parsing, and process liveness. -/
structure Env where
  setupJail : String → String → String → Except String JailPaths
  prepareStorage : String → String → String → Except String VMStorage
  createTap : String → Except String String
  startJailed : String → String → JailPaths → Int → Int → Except String ProcessHandle
  startDirect : String → String → String → Except String ProcessHandle
  setBootSource : BootSource → Except String Unit
  setMachineConfig : MachineConfig → Except String Unit
  addDrive : Drive → Except String Unit
  addNetworkInterface : NetworkInterface → Except String Unit
  startInstance : Except String Unit
  sendCtrlAltDel : Except String Unit
  parseCIDR : String → Option String
  isRunning : Nat → Bool
  now : Int

/-- A rollback (or delete-time cleanup) action, as data.  The jail
branch of create pushes one closure running `CleanupJail` then
`CleanupVMStorage`; it is one stack entry. -/
inductive CleanupAction where
  | cleanupJailAndStorage (vmId : String)
  | cleanupStorage (vmId : String)
  | cleanupJail (vmId : String)
  | deleteTap (tapName : String)
  | killProcess (pid : Nat)
  deriving DecidableEq, Repr

/-- A registry entry: embeds `VM` (internal/firecracker/manager.go:41-47). -/
structure VM where
  info : VMInfo
  process : Option ProcessHandle
  socketPath : String
  tapDevice : String
  createdAt : Int
  deriving DecidableEq, Repr

/-- The manager's registry `vms map[string]*VM`, as an association list. -/
abbrev Registry := List (String × VM)

/-- Outcome of `Manager.CreateVM`: the returned value, the registry
afterwards, the unwind stack as it stood (in push order), and the
unwind actions actually executed (in execution order). -/
structure CreateOutcome where
  result : Except String VMInfo
  vms : Registry
  pushed : List CleanupAction
  executed : List CleanupAction
  deriving DecidableEq, Repr

/-- Embeds `Manager.extractGatewayIP` (internal/firecracker/manager.go:282-289):
the IP part of the bridge CIDR, or the raw value when parsing fails. -/
def extractGatewayIP (parseCIDR : String → Option String) (cidr : String) : String :=
  match parseCIDR cidr with
  | some ip => ip
  | none => cidr

/-- Kernel boot arguments built by `Manager.CreateVM`
(internal/firecracker/manager.go:206-210). -/
def mkBootArgs (ipAddress gatewayIP : String) : String :=
  let base := "console=ttyS0 reboot=k panic=1 pci=off"
  if ipAddress = "" then base
  else base ++ " ip=" ++ ipAddress ++ ":" ++ gatewayIP ++ ":" ++ gatewayIP ++
    ":255.255.255.0::eth0:off"

/-- Effective kernel path: request override, else configured default
(internal/firecracker/manager.go:91-94). -/
def resolvedKernelPath (cfg : ManagerConfig) (req : CreateVMRequest) : String :=
  if req.kernelPath = "" then cfg.kernelPath else req.kernelPath

/-- Effective rootfs path: request override, else configured default
(internal/firecracker/manager.go:96-99). -/
def resolvedRootfsPath (cfg : ManagerConfig) (req : CreateVMRequest) : String :=
  if req.rootfsPath = "" then cfg.rootfsPath else req.rootfsPath

/-- The `VMStorage` assembled from jail paths in the jail branch
(internal/firecracker/manager.go:158-164). -/
def jailStorageOf (jp : JailPaths) : VMStorage :=
  ⟨jp.jailDir, jp.rootfsPath, jp.kernelPath, jp.socketPath, jp.logPath⟩

/-- Failure exit of `Manager.CreateVM` while `committed` is false: the
deferred loop runs the pushed stack in reverse order, the registry is
left untouched, and the wrapped error is returned. -/
def unwindFail (e : String) (vms : Registry) (st : List CleanupAction) : CreateOutcome :=
  ⟨.error e, vms, st, st.reverse⟩

/-- The REST configuration handshake and commit of `Manager.CreateVM`
(internal/firecracker/manager.go:199-278): boot source, machine config,
root drive, network interface, instance start, then the record is
inserted and `committed` is set (the unwind stack is dropped unrun). -/
def configurePhase (cfg : ManagerConfig) (env : Env) (vms : Registry) (req : CreateVMRequest)
    (vmStorage : VMStorage) (tapDevice macAddr : String) (process : ProcessHandle)
    (st : List CleanupAction) : CreateOutcome :=
  let gatewayIP := extractGatewayIP env.parseCIDR cfg.bridgeIP
  let bootArgs := mkBootArgs req.ipAddress gatewayIP
  match env.setBootSource ⟨vmStorage.kernelPath, bootArgs⟩ with
  | .error e => unwindFail ("failed to set boot source: " ++ e) vms st
  | .ok _ =>
    match env.setMachineConfig ⟨req.vcpuCount, req.memoryMb, false⟩ with
    | .error e => unwindFail ("failed to set machine config: " ++ e) vms st
    | .ok _ =>
      match env.addDrive ⟨"rootfs", vmStorage.rootfsPath, true, false⟩ with
      | .error e => unwindFail ("failed to add drive: " ++ e) vms st
      | .ok _ =>
        match env.addNetworkInterface ⟨"eth0", tapDevice, macAddr⟩ with
        | .error e => unwindFail ("failed to add network interface: " ++ e) vms st
        | .ok _ =>
          match env.startInstance with
          | .error e => unwindFail ("failed to start instance: " ++ e) vms st
          | .ok _ =>
            let vmInfo : VMInfo := ⟨req.vmId, .running, req.vcpuCount, req.memoryMb,
              req.ipAddress, vmStorage.socketPath, env.now, req.metadata⟩
            ⟨.ok vmInfo,
             (req.vmId, ⟨vmInfo, some process, vmStorage.socketPath, tapDevice, env.now⟩) :: vms,
             st, []⟩

/-- Embeds `Manager.CreateVM` (internal/firecracker/manager.go:79-279).
Each resource acquisition appends its rollback action to the stack `st`;
any failure runs the stack in reverse via `unwindFail`. -/
def createVM (cfg : ManagerConfig) (env : Env) (vms : Registry) (req : CreateVMRequest) :
    CreateOutcome :=
  match List.lookup req.vmId vms with
  | some _ => ⟨.error ("VM " ++ req.vmId ++ " already exists"), vms, [], []⟩
  | none =>
    let kernelPath := resolvedKernelPath cfg req
    let rootfsPath := resolvedRootfsPath cfg req
    if cfg.useJailer = some true then
      match env.setupJail req.vmId kernelPath rootfsPath with
      | .error e => unwindFail ("failed to setup jail directory: " ++ e) vms []
      | .ok jailPaths0 =>
        let st := [CleanupAction.cleanupJailAndStorage req.vmId]
        let jailPaths := { jailPaths0 with firecrackerBinary := cfg.binaryPath }
        match env.createTap req.vmId with
        | .error e => unwindFail ("failed to create TAP device: " ++ e) vms st
        | .ok tapDevice =>
          let st := st ++ [CleanupAction.deleteTap tapDevice]
          let macAddr := GenerateMAC req.vmId
          match env.startJailed cfg.jailerPath req.vmId jailPaths cfg.jailUID cfg.jailGID with
          | .error e => unwindFail ("failed to start jailed Firecracker process: " ++ e) vms st
          | .ok process =>
            let st := st ++ [CleanupAction.killProcess process.pid]
            configurePhase cfg env vms req (jailStorageOf jailPaths) tapDevice macAddr process st
    else
      match env.prepareStorage req.vmId kernelPath rootfsPath with
      | .error e => unwindFail ("failed to prepare storage: " ++ e) vms []
      | .ok vmStorage =>
        let st := [CleanupAction.cleanupStorage req.vmId]
        match env.createTap req.vmId with
        | .error e => unwindFail ("failed to create TAP device: " ++ e) vms st
        | .ok tapDevice =>
          let st := st ++ [CleanupAction.deleteTap tapDevice]
          let macAddr := GenerateMAC req.vmId
          match env.startDirect cfg.binaryPath vmStorage.socketPath vmStorage.logPath with
          | .error e => unwindFail ("failed to start Firecracker process: " ++ e) vms st
          | .ok process =>
            let st := st ++ [CleanupAction.killProcess process.pid]
            configurePhase cfg env vms req vmStorage tapDevice macAddr process st

/-- Registry update performed by `Manager.StopVM`
(internal/firecracker/manager.go:345-347): the record's state field is
set to `Stopped` under the write lock. -/
def setVMStopped (vms : Registry) (vmId : String) : Registry :=
  vms.map (fun p => if p.1 = vmId then (p.1, { p.2 with info.state := VMState.stopped }) else p)

/-- Process-level actions taken by `Manager.StopVM` on its way down. -/
inductive StopStep where
  | kill (pid : Nat)
  | ctrlAltDel
  | termStop (pid : Nat)
  deriving DecidableEq, Repr

/-- Embeds `Manager.StopVM` (internal/firecracker/manager.go:313-350).
Unknown id fails with not-found; otherwise the process is terminated
(force: kill; graceful: Ctrl+Alt+Del, escalating to kill when the REST
call fails, else SIGTERM with timeout) and the recorded state is set to
`Stopped`.  The record stays in the registry. -/
def stopVM (env : Env) (vms : Registry) (vmId : String) (force : Bool) :
    Except String Unit × Registry × List StopStep :=
  match List.lookup vmId vms with
  | none => (.error ("VM " ++ vmId ++ " not found"), vms, [])
  | some vm =>
    let steps :=
      match vm.process with
      | none => []
      | some p =>
        if force then [StopStep.kill p.pid]
        else
          match env.sendCtrlAltDel with
          | .error _ => [StopStep.ctrlAltDel, StopStep.kill p.pid]
          | .ok _ => [StopStep.ctrlAltDel, StopStep.termStop p.pid]
    (.ok (), setVMStopped vms vmId, steps)

/-- Embeds `Manager.DeleteVM` (internal/firecracker/manager.go:353-396).
Unknown id fails with not-found; otherwise kill, TAP delete, jail
cleanup (when jailing is on) and storage cleanup run best-effort in that
order and the record is removed. -/
def deleteVM (cfg : ManagerConfig) (vms : Registry) (vmId : String) :
    Except String Unit × Registry × List CleanupAction :=
  match List.lookup vmId vms with
  | none => (.error ("VM " ++ vmId ++ " not found"), vms, [])
  | some vm =>
    let acts :=
      (match vm.process with
       | some p => [CleanupAction.killProcess p.pid]
       | none => []) ++
      (if vm.tapDevice ≠ "" then [CleanupAction.deleteTap vm.tapDevice] else []) ++
      (if cfg.useJailer = some true then [CleanupAction.cleanupJail vmId] else []) ++
      [CleanupAction.cleanupStorage vmId]
    (.ok (), vms.filter (fun p => p.1 ≠ vmId), acts)

/-- Embeds `Manager.StartVM` (internal/firecracker/manager.go:292-310):
success only when the supervisor is currently running; otherwise the VM
must be recreated.  The registry is never changed. -/
def startVM (env : Env) (vms : Registry) (vmId : String) : Except String Unit :=
  match List.lookup vmId vms with
  | none => .error ("VM " ++ vmId ++ " not found")
  | some vm =>
    match vm.process with
    | some p =>
      if env.isRunning p.pid then .ok ()
      else .error ("VM " ++ vmId ++ " cannot be restarted - Firecracker VMs must be recreated")
    | none => .error ("VM " ++ vmId ++ " cannot be restarted - Firecracker VMs must be recreated")

/-- Embeds `Manager.resolveVMState` (internal/firecracker/manager.go:400-405):
`Stopped` when a supervisor handle exists but its process is gone, the
recorded state otherwise. -/
def resolveVMState (live : Nat → Bool) (vm : VM) : VMState :=
  match vm.process with
  | some p => if live p.pid = false then VMState.stopped else vm.info.state
  | none => vm.info.state

/-- Embeds `Manager.copyVMInfo` (internal/firecracker/manager.go:408-419):
a fresh projection carrying the resolved state and the recorded fields. -/
def copyVMInfo (live : Nat → Bool) (vm : VM) : VMInfo :=
  ⟨vm.info.vmId, resolveVMState live vm, vm.info.vcpuCount, vm.info.memoryMb,
   vm.info.ipAddress, vm.info.socketPath, vm.info.createdAt, vm.info.metadata⟩

/-- Embeds `Manager.GetVM` (internal/firecracker/manager.go:422-432). -/
def getVM (live : Nat → Bool) (vms : Registry) (vmId : String) : Except String VMInfo :=
  match List.lookup vmId vms with
  | none => .error ("VM " ++ vmId ++ " not found")
  | some vm => .ok (copyVMInfo live vm)

/-- Embeds `Manager.ListVMs` (internal/firecracker/manager.go:435-445). -/
def listVMs (live : Nat → Bool) (vms : Registry) : List VMInfo :=
  vms.map (fun p => copyVMInfo live p.2)

/-- Projects an `Except` step outcome to `Unit`, wrapping the error with
the manager's `fmt.Errorf` message. -/
def wrapStep (pre : String) : Except String α → Except String Unit
  | .error e => .error (pre ++ e)
  | .ok _ => .ok ()

/-- First error in a list of step outcomes, in order. -/
def firstError (l : List (Except String Unit)) : Option String :=
  l.findSome? (fun r => match r with | .error e => some e | .ok _ => none)

/-- Modelled from the specification's step list for create (§4.E.1,
steps 3-7): the outcomes of the external calls of `CreateVM` in program
order — storage or jail preparation, TAP creation, supervisor spawn,
then the five REST configuration calls.  Used to state that the error
returned by create is the first failure. -/
def specApiSteps (cfg : ManagerConfig) (env : Env) (req : CreateVMRequest)
    (vmStorage : VMStorage) (tapDevice macAddr : String) : List (Except String Unit) :=
  [wrapStep "failed to set boot source: " (env.setBootSource ⟨vmStorage.kernelPath,
      mkBootArgs req.ipAddress (extractGatewayIP env.parseCIDR cfg.bridgeIP)⟩),
   wrapStep "failed to set machine config: " (env.setMachineConfig ⟨req.vcpuCount, req.memoryMb, false⟩),
   wrapStep "failed to add drive: " (env.addDrive ⟨"rootfs", vmStorage.rootfsPath, true, false⟩),
   wrapStep "failed to add network interface: " (env.addNetworkInterface ⟨"eth0", tapDevice, macAddr⟩),
   wrapStep "failed to start instance: " env.startInstance]

def specStepOutcomes (cfg : ManagerConfig) (env : Env) (req : CreateVMRequest) :
    List (Except String Unit) :=
  let kernelPath := resolvedKernelPath cfg req
  let rootfsPath := resolvedRootfsPath cfg req
  let useJ := cfg.useJailer = some true
  let jailStep := (env.setupJail req.vmId kernelPath rootfsPath).map
    (fun jp0 => { jp0 with firecrackerBinary := cfg.binaryPath })
  let jp := jailStep.toOption.getD ⟨"", "", "", "", "", ""⟩
  let directStorage := env.prepareStorage req.vmId kernelPath rootfsPath
  let vmStorage :=
    if useJ then jailStorageOf jp else directStorage.toOption.getD ⟨"", "", "", "", ""⟩
  let storageStep :=
    if useJ then wrapStep "failed to setup jail directory: " jailStep
    else wrapStep "failed to prepare storage: " directStorage
  let tapStep := env.createTap req.vmId
  let tapDevice := tapStep.toOption.getD ""
  let macAddr := GenerateMAC req.vmId
  let spawnStep :=
    if useJ then
      wrapStep "failed to start jailed Firecracker process: "
        (env.startJailed cfg.jailerPath req.vmId jp cfg.jailUID cfg.jailGID)
    else
      wrapStep "failed to start Firecracker process: "
        (env.startDirect cfg.binaryPath vmStorage.socketPath vmStorage.logPath)
  [storageStep,
   wrapStep "failed to create TAP device: " tapStep,
   spawnStep] ++ specApiSteps cfg env req vmStorage tapDevice macAddr

/-- Modelled from the specification's rollback discipline (steps 3-6 of
create): the rollback actions of the three resource acquisitions in
acquisition order — storage or jail cleanup, TAP delete, supervisor
kill. -/
def specAcquiredStack (cfg : ManagerConfig) (env : Env) (req : CreateVMRequest) :
    List CleanupAction :=
  let kernelPath := resolvedKernelPath cfg req
  let rootfsPath := resolvedRootfsPath cfg req
  let useJ := cfg.useJailer = some true
  let jailStep := (env.setupJail req.vmId kernelPath rootfsPath).map
    (fun jp0 => { jp0 with firecrackerBinary := cfg.binaryPath })
  let jp := jailStep.toOption.getD ⟨"", "", "", "", "", ""⟩
  let directStorage := env.prepareStorage req.vmId kernelPath rootfsPath
  let vmStorage :=
    if useJ then jailStorageOf jp else directStorage.toOption.getD ⟨"", "", "", "", ""⟩
  let tapDevice := (env.createTap req.vmId).toOption.getD ""
  let spawn :=
    if useJ then env.startJailed cfg.jailerPath req.vmId jp cfg.jailUID cfg.jailGID
    else env.startDirect cfg.binaryPath vmStorage.socketPath vmStorage.logPath
  [if useJ then CleanupAction.cleanupJailAndStorage req.vmId
   else CleanupAction.cleanupStorage req.vmId,
   CleanupAction.deleteTap tapDevice,
   CleanupAction.killProcess (spawn.toOption.getD ⟨0⟩).pid]

/-- Registries the orchestrator can actually hold: reachable from the
empty registry through create, stop and delete. -/
inductive Reachable : Registry → Prop
  | empty : Reachable []
  | create {m : Registry} (cfg : ManagerConfig) (env : Env) (req : CreateVMRequest) :
      Reachable m → Reachable (createVM cfg env m req).vms
  | stop {m : Registry} (env : Env) (vmId : String) (force : Bool) :
      Reachable m → Reachable (stopVM env m vmId force).2.1
  | delete {m : Registry} (cfg : ManagerConfig) (vmId : String) :
      Reachable m → Reachable (deleteVM cfg m vmId).2.1

/-! ### Claims about MAC derivation (C3) -/

/-- C3 counterexample: the specification's worked example is wrong on
the code.  `GenerateMAC "abcdefghij"` is not `"02:FC:03:03:03:03"`:
only the first octet is `03` (`0x61 xor 0x62`); the second is
`0x63 xor 0x64 = 07`, the fourth `0x67 xor 0x68 = 0f`. -/
theorem generateMAC_spec_example_refuted :
    GenerateMAC "abcdefghij" ≠ "02:FC:03:03:03:03" := by decide

/-- C3 amended: on the id `"abcdefghij"` the derived MAC is exactly
`"02:FC:03:07:03:0f"`. -/
theorem generateMAC_abcdefghij_value :
    GenerateMAC "abcdefghij" = "02:FC:03:07:03:0f" := by decide

/-! ### Claims about configuration loading (C10) -/

/-- C10: after a successful `Load`, `Firecracker.UseJailer` is `true`
for every parsed configuration — the defaulting pass assigns it
unconditionally, so an explicit `use_jailer: false` in the file is
silently ignored. -/
theorem applyJailerDefaults_useJailer (c : Config) :
    (applyJailerDefaults c).firecracker.useJailer = true := by
  simp only [applyJailerDefaults]
  split <;> split <;> rfl

theorem load_forces_useJailer (cfg : Config) :
    load (Except.ok cfg) = Except.ok (applyDefaults cfg) ∧
    (applyDefaults cfg).firecracker.useJailer = true := by
  constructor
  · rfl
  · unfold applyDefaults
    exact applyJailerDefaults_useJailer _

/-! ### Claims about the RPC handlers (C2, C7) -/

/-- C2 counterexample: a `DeleteVM` call whose orchestrator call fails
returns a failure response (`success = false` with the error message)
yet broadcasts no event at all — in particular no `Error` event. -/
theorem deleteVM_failure_broadcasts_nothing :
    (handleDeleteVM (some "VM vm-1 not found") 7 "vm-1").result =
      .resp ⟨"vm-1", false, "VM vm-1 not found"⟩ ∧
    (handleDeleteVM (some "VM vm-1 not found") 7 "vm-1").events = [] :=
  ⟨rfl, rfl⟩

/-- C2 amended: for CreateVM, StartVM and StopVM, a failure of the
orchestrator call broadcasts exactly one `Error` event carrying the
error's message; a failing DeleteVM broadcasts nothing. -/
theorem failed_mutations_error_events (e : String) (now : Int) (req : CreateVMRequest)
    (hid : req.vmId ≠ "") (h1 : 1 ≤ req.vcpuCount) (h2 : req.vcpuCount ≤ 32)
    (h3 : 128 ≤ req.memoryMb) (id2 : String) (hid2 : id2 ≠ "") :
    (handleCreateVM (.error e) now req).events = [⟨req.vmId, .error, e, now, .error⟩] ∧
    (handleStartVM (some e) now id2).events = [⟨id2, .error, e, now, .error⟩] ∧
    (∀ force : Bool, (handleStopVM (some e) now id2 force).events =
      [⟨id2, .error, e, now, .error⟩]) ∧
    (handleDeleteVM (some e) now id2).events = [] := by
  have hv : ¬(req.vcpuCount < 1 ∨ 32 < req.vcpuCount) := by omega
  have hm : ¬(req.memoryMb < 128) := by omega
  refine ⟨?_, ?_, ?_, ?_⟩
  · simp [handleCreateVM, hid, hv, hm]
  · simp [handleStartVM, hid2]
  · intro force
    simp [handleStopVM, hid2]
  · simp [handleDeleteVM, hid2]

/-- C2 amended, witness at concrete inputs. -/
theorem failed_mutations_error_events_witness :
    (handleCreateVM (.error "boom") 5 ⟨"vm-1", 2, 512, "", "", "", []⟩).events =
      [⟨"vm-1", .error, "boom", 5, .error⟩] ∧
    (handleStartVM (some "boom") 5 "vm-2").events = [⟨"vm-2", .error, "boom", 5, .error⟩] := by
  have h := failed_mutations_error_events "boom" 5 ⟨"vm-1", 2, 512, "", "", "", []⟩
    (by decide) (by decide) (by decide) (by decide) "vm-2" (by decide)
  exact ⟨h.1, h.2.1⟩

/-- C7: `CreateVM` request validation (for a non-empty id) accepts
exactly `vcpu_count ∈ [1,32]` together with `memory_mib ≥ 128`; the
orchestrator is invoked when and only when validation passes, and the
boundary rejections carry `InvalidArgument`. -/
theorem handleCreateVM_validation (mgr : Except String VMInfo) (now : Int)
    (id ip kp rp : String) (md : List (String × String)) (hid : id ≠ "") :
    (∀ vcpu mem : Int,
      ((handleCreateVM mgr now ⟨id, vcpu, mem, ip, kp, rp, md⟩).managerCalled = true ↔
        1 ≤ vcpu ∧ vcpu ≤ 32 ∧ 128 ≤ mem)) ∧
    (∀ mem : Int, (handleCreateVM mgr now ⟨id, 0, mem, ip, kp, rp, md⟩).result =
      .status ⟨.invalidArgument, "vcpu_count must be between 1 and 32"⟩) ∧
    (∀ mem : Int, (handleCreateVM mgr now ⟨id, 33, mem, ip, kp, rp, md⟩).result =
      .status ⟨.invalidArgument, "vcpu_count must be between 1 and 32"⟩) ∧
    (∀ vcpu : Int, 1 ≤ vcpu → vcpu ≤ 32 →
      (handleCreateVM mgr now ⟨id, vcpu, 127, ip, kp, rp, md⟩).result =
      .status ⟨.invalidArgument, "memory_mb must be at least 128"⟩) := by
  refine ⟨?_, ?_, ?_, ?_⟩
  · intro vcpu mem
    by_cases hv : vcpu < 1 ∨ 32 < vcpu
    · simp [handleCreateVM, hid, hv]; omega
    · by_cases hm : mem < 128
      · simp [handleCreateVM, hid, hv, hm]
      · cases mgr <;> simp [handleCreateVM, hid, hv, hm] <;> omega
  · intro mem
    have hv : ((0 : Int) < 1 ∨ (32 : Int) < 0) := by norm_num
    simp [handleCreateVM, hid, hv]
  · intro mem
    have hv : ((33 : Int) < 1 ∨ (32 : Int) < 33) := by norm_num
    simp [handleCreateVM, hid, hv]
  · intro vcpu hv1 hv2
    have hv : ¬(vcpu < 1 ∨ 32 < vcpu) := by omega
    have hm : ((127 : Int) < 128) := by norm_num
    simp [handleCreateVM, hid, hv, hm]

/-- C7, witness: the documented boundary inputs. -/
theorem handleCreateVM_validation_witness :
    ((handleCreateVM (.error "x") 0 ⟨"vm-1", 0, 512, "", "", "", []⟩).result =
      .status ⟨.invalidArgument, "vcpu_count must be between 1 and 32"⟩) ∧
    ((handleCreateVM (.error "x") 0 ⟨"vm-1", 33, 512, "", "", "", []⟩).result =
      .status ⟨.invalidArgument, "vcpu_count must be between 1 and 32"⟩) ∧
    ((handleCreateVM (.error "x") 0 ⟨"vm-1", 2, 127, "", "", "", []⟩).result =
      .status ⟨.invalidArgument, "memory_mb must be at least 128"⟩) ∧
    ((handleCreateVM (.error "x") 0 ⟨"vm-1", 1, 128, "", "", "", []⟩).managerCalled = true) ∧
    ((handleCreateVM (.error "x") 0 ⟨"vm-1", 32, 128, "", "", "", []⟩).managerCalled = true) := by
  have h := handleCreateVM_validation (.error "x") 0 "vm-1" "" "" "" [] (by decide)
  refine ⟨h.2.1 512, h.2.2.1 512, h.2.2.2 2 (by norm_num) (by norm_num), ?_, ?_⟩
  · exact (h.1 1 128).mpr ⟨by norm_num, by norm_num, by norm_num⟩
  · exact (h.1 32 128).mpr ⟨by norm_num, by norm_num, by norm_num⟩

/-! ### Claims about the event bus (C8) -/

/-- Lookup through the per-subscriber map of `broadcast`: each key keeps
its key and its queue goes through `trySend`. -/
theorem lookup_broadcast (l : List (String × List VMEvent)) (e : VMEvent) (id : String) :
    (l.map (fun p => (p.1, trySend p.2 e))).lookup id =
      (l.lookup id).map (fun q => trySend q e) := by
  induction l with
  | nil => rfl
  | cons hd tl ih =>
    obtain ⟨k, v⟩ := hd
    cases h : id == k <;> simp [List.lookup, h, ih]

/-- C8: `Broadcast` performs a non-blocking send to every subscriber:
a subscriber whose 100-slot channel has free space receives the event,
a full subscriber drops it — for that subscriber only, as every other
subscriber with free space still receives it. -/
theorem broadcast_drop_on_full (es : EventStream) (e : VMEvent) (id : String)
    (q : List VMEvent) (h : es.subscribers.lookup id = some q) :
    (broadcast es e).subscribers.lookup id =
      some (if q.length < chanCap then q ++ [e] else q) ∧
    (∀ id2 q2, es.subscribers.lookup id2 = some q2 → q2.length < chanCap →
      (broadcast es e).subscribers.lookup id2 = some (q2 ++ [e])) := by
  constructor
  · rw [show (broadcast es e).subscribers = es.subscribers.map (fun p => (p.1, trySend p.2 e)) from rfl,
       lookup_broadcast, h]
    simp [trySend]
  · intro id2 q2 h2 hlen
    rw [show (broadcast es e).subscribers = es.subscribers.map (fun p => (p.1, trySend p.2 e)) from rfl,
       lookup_broadcast, h2]
    simp [trySend, hlen]

/-- C8, witness: one subscriber with a full buffer drops the event, the
other receives it. -/
theorem broadcast_drop_on_full_witness :
    (broadcast
        ⟨[("slow", List.replicate 100 ⟨"vm-1", .running, "m", 0, .created⟩), ("fast", [])]⟩
        ⟨"vm-1", .running, "m", 0, .created⟩).subscribers.lookup "slow" =
      some (List.replicate 100 ⟨"vm-1", .running, "m", 0, .created⟩) ∧
    (broadcast
        ⟨[("slow", List.replicate 100 ⟨"vm-1", .running, "m", 0, .created⟩), ("fast", [])]⟩
        ⟨"vm-1", .running, "m", 0, .created⟩).subscribers.lookup "fast" =
      some [⟨"vm-1", .running, "m", 0, .created⟩] := by
  have h := broadcast_drop_on_full
    ⟨[("slow", List.replicate 100 ⟨"vm-1", .running, "m", 0, .created⟩), ("fast", [])]⟩
    ⟨"vm-1", .running, "m", 0, .created⟩ "slow"
    (List.replicate 100 ⟨"vm-1", .running, "m", 0, .created⟩) rfl
  have h1 := h.1
  rw [if_neg (by decide)] at h1
  exact ⟨h1, h.2 "fast" [] rfl (by decide)⟩

/-! ### Claims about short VM ids reaching the TAP slice (C9) -/

/-- C9: for every id shorter than 8 bytes, the TAP name computation hits
the out-of-range Go slice `vmID[:8]` and panics (modelled as `none`)
instead of returning an error; and since RPC validation only requires a
non-empty id, such an id passes `CreateVM` validation and reaches the
orchestrator. -/
theorem short_id_tap_slice_panics (vmID : String) (h : (strBytes vmID).length < 8)
    (hne : vmID ≠ "") (tapPfx : String) (mgr : Except String VMInfo) (now : Int)
    (vcpu mem : Int) (h1 : 1 ≤ vcpu) (h2 : vcpu ≤ 32) (h3 : 128 ≤ mem)
    (ip kp rp : String) (md : List (String × String)) :
    CreateTAPDeviceName tapPfx vmID = none ∧
    (handleCreateVM mgr now ⟨vmID, vcpu, mem, ip, kp, rp, md⟩).managerCalled = true := by
  constructor
  · unfold CreateTAPDeviceName
    rw [if_neg (by omega)]
  · have hv : ¬(vcpu < 1 ∨ 32 < vcpu) := by omega
    have hm : ¬(mem < 128) := by omega
    cases mgr <;> simp [handleCreateVM, hne, hv, hm]

/-- C9, witness: the three-byte id `"abc"` panics the TAP slice and
passes validation. -/
theorem short_id_tap_slice_panics_witness :
    CreateTAPDeviceName "vmtap" "abc" = none ∧
    (handleCreateVM (.error "x") 0 ⟨"abc", 1, 128, "", "", "", []⟩).managerCalled = true := by
  have h := short_id_tap_slice_panics "abc" (by decide) (by decide) "vmtap" (.error "x") 0
    1 128 (by norm_num) (by norm_num) (by norm_num) "" "" "" []
  exact h

/-! ### Claims about the MAC shape (C4) -/

theorem char_toNat_lt (c : Char) : c.toNat < 1114112 := by
  show c.val.toNat < 1114112
  rcases c.valid with h | ⟨h1, h2⟩ <;> omega

theorem utf8Bytes_lt (c : Nat) (hc : c < 1114112) : ∀ b ∈ utf8Bytes c, b < 256 := by
  intro b hb
  unfold utf8Bytes at hb
  split at hb
  · simp at hb; omega
  · split at hb
    · simp at hb; rcases hb with rfl | rfl <;> omega
    · split at hb
      · simp at hb; rcases hb with rfl | rfl | rfl <;> omega
      · simp at hb; rcases hb with rfl | rfl | rfl | rfl <;> omega

theorem strBytes_lt (s : String) : ∀ b ∈ strBytes s, b < 256 := by
  intro b hb
  unfold strBytes at hb
  rw [List.mem_flatMap] at hb
  obtain ⟨ch, _, hb⟩ := hb
  exact utf8Bytes_lt ch.toNat (char_toNat_lt ch) b hb

theorem getD_lt (bs : List Nat) (j : Nat) (h : ∀ b ∈ bs, b < 256) : bs.getD j 0 < 256 := by
  induction bs generalizing j with
  | nil => simp [List.getD]
  | cons hd tl ih =>
    cases j with
    | zero => simpa using h hd (by simp)
    | succ n =>
      simp only [List.getD_cons_succ]
      exact ih n (fun b hb => h b (List.mem_cons_of_mem _ hb))

theorem hexDigitChar_isLowerHex (n : Nat) (h : n < 16) :
    isLowerHexDigit (hexDigitChar n) = true := by
  interval_cases n <;> decide

theorem hex02_data (n : Nat) (h : n < 256) :
    ∃ a b, (hex02 n).data = [a, b] ∧ isLowerHexDigit a = true ∧ isLowerHexDigit b = true := by
  refine ⟨hexDigitChar (n / 16), hexDigitChar (n % 16), rfl, ?_, ?_⟩
  · exact hexDigitChar_isLowerHex _ (by omega)
  · exact hexDigitChar_isLowerHex _ (Nat.mod_lt _ (by norm_num))

theorem specMacOctet_data (bs : List Nat) (h : ∀ b ∈ bs, b < 256) (i : Nat) :
    ∃ a b, (specMacOctet bs i).data = [a, b] ∧
      isLowerHexDigit a = true ∧ isLowerHexDigit b = true := by
  unfold specMacOctet
  split
  · apply hex02_data
    have h1 := getD_lt bs (2 * i) h
    have h2 := getD_lt bs (2 * i + 1) h
    have e : (256 : Nat) = 2 ^ 8 := by norm_num
    rw [e] at h1 h2 ⊢
    exact Nat.xor_lt_two_pow h1 h2
  · exact ⟨'0', '0', rfl, by decide, by decide⟩

theorem string_append_assoc (a b c : String) : a ++ b ++ c = a ++ (b ++ c) := by
  obtain ⟨x⟩ := a; obtain ⟨y⟩ := b; obtain ⟨z⟩ := c
  show String.mk ((x ++ y) ++ z) = String.mk (x ++ (y ++ z))
  rw [List.append_assoc]

theorem macStep_eq (bs : List Nat) (mac : String) (i : Nat) :
    (if 2 * i + 1 < bs.length then
        mac ++ ":" ++ hex02 (Nat.xor (bs.getD (2 * i) 0) (bs.getD (2 * i + 1) 0))
      else mac ++ ":00") = mac ++ ":" ++ specMacOctet bs i := by
  unfold specMacOctet
  split
  · rfl
  · rw [string_append_assoc]
    have h00 : (":00" : String) = ":" ++ "00" := by decide
    rw [← h00]

theorem macGroupsOK_cons (a b : Char) (ha : isLowerHexDigit a = true)
    (hb : isLowerHexDigit b = true) (rest : List Char) (n : Nat)
    (h : macGroupsOK rest n = true) :
    macGroupsOK (':' :: a :: b :: rest) (n + 1) = true := by
  simp [macGroupsOK, ha, hb, h]

/-- C4: for every id, `GenerateMAC` returns `02:FC` followed by four
octets, octet `i` being the XOR of bytes `2i` and `2i+1` of the id when
index `2i+1` is within the id and `00` otherwise; the result always
matches `^02:FC(:[0-9a-f]{2}){4}$`, and equal ids give equal MACs. -/
theorem generateMAC_spec_shape (s : String) :
    GenerateMAC s =
      "02:FC" ++ ":" ++ specMacOctet (strBytes s) 0 ++ ":" ++ specMacOctet (strBytes s) 1 ++
        ":" ++ specMacOctet (strBytes s) 2 ++ ":" ++ specMacOctet (strBytes s) 3 ∧
    matchesMacShape (GenerateMAC s) = true ∧
    (∀ t : String, s = t → GenerateMAC s = GenerateMAC t) := by
  have heq : GenerateMAC s =
      "02:FC" ++ ":" ++ specMacOctet (strBytes s) 0 ++ ":" ++ specMacOctet (strBytes s) 1 ++
        ":" ++ specMacOctet (strBytes s) 2 ++ ":" ++ specMacOctet (strBytes s) 3 := by
    simp only [GenerateMAC]
    rw [show List.range 4 = [0, 1, 2, 3] from rfl]
    simp only [List.foldl_cons, List.foldl_nil]
    rw [macStep_eq, macStep_eq, macStep_eq, macStep_eq]
  refine ⟨heq, ?_, fun t ht => by rw [ht]⟩
  have hb := strBytes_lt s
  obtain ⟨a0, b0, h0, ha0, hb0⟩ := specMacOctet_data _ hb 0
  obtain ⟨a1, b1, h1, ha1, hb1⟩ := specMacOctet_data _ hb 1
  obtain ⟨a2, b2, h2, ha2, hb2⟩ := specMacOctet_data _ hb 2
  obtain ⟨a3, b3, h3, ha3, hb3⟩ := specMacOctet_data _ hb 3
  rw [heq]
  unfold matchesMacShape
  have hc : (":" : String).data = [':'] := rfl
  have hp : ("02:FC" : String).data = ['0', '2', ':', 'F', 'C'] := rfl
  simp only [String.data_append, hc, hp, h0, h1, h2, h3, List.cons_append, List.nil_append,
    List.append_assoc]
  exact macGroupsOK_cons a0 b0 ha0 hb0 _ 3
    (macGroupsOK_cons a1 b1 ha1 hb1 _ 2
      (macGroupsOK_cons a2 b2 ha2 hb2 _ 1
        (macGroupsOK_cons a3 b3 ha3 hb3 [] 0 rfl)))

/-! ### Demonstration configuration and environment for witnesses -/

/-- Direct-mode manager configuration used by concrete witnesses. -/
def demoCfg : ManagerConfig :=
  ⟨"/usr/bin/firecracker", "/usr/bin/jailer", "/img/vmlinux", "/img/rootfs.ext4",
   some false, 1000, 1000, "172.16.0.1/24"⟩

/-- Environment in which every external call succeeds. -/
def demoEnv : Env where
  setupJail := fun _ _ _ =>
    .ok ⟨"/jail/root", "", "/vmlinux", "/rootfs.ext4", "/jail/root/run/firecracker.socket", "/jail/log"⟩
  prepareStorage := fun _ _ _ =>
    .ok ⟨"/vms/vm", "/vms/vm/rootfs.ext4", "/vms/vm/vmlinux.bin", "/sock", "/log"⟩
  createTap := fun _ => .ok "vmtap-vm-12345"
  startJailed := fun _ _ _ _ _ => .ok ⟨41⟩
  startDirect := fun _ _ _ => .ok ⟨42⟩
  setBootSource := fun _ => .ok ()
  setMachineConfig := fun _ => .ok ()
  addDrive := fun _ => .ok ()
  addNetworkInterface := fun _ => .ok ()
  startInstance := .ok ()
  sendCtrlAltDel := .ok ()
  parseCIDR := fun _ => none
  isRunning := fun _ => true
  now := 1700000000

/-- Create request used by concrete witnesses. -/
def demoReq : CreateVMRequest := ⟨"vm-12345678", 2, 512, "", "", "", []⟩

/-- A pre-existing registry record used by concrete witnesses. -/
def demoVM : VM :=
  ⟨⟨"vm-1", .running, 1, 256, "", "/sock", 0, []⟩, some ⟨42⟩, "/sock", "vmtap-old", 0⟩

/-! ### Claims about duplicate create (C5) -/

/-- C5: `CreateVM` on an id already present fails with the
already-exists error before acquiring any resource: the registry (and
the existing record in it) is unchanged, nothing was pushed on the
unwind stack and nothing is rolled back, and the outcome does not
depend on the environment at all — no external call is consulted. -/
theorem createVM_duplicate_id (cfg : ManagerConfig) (env env2 : Env) (m : Registry)
    (req : CreateVMRequest) (vm : VM) (h : List.lookup req.vmId m = some vm) :
    createVM cfg env m req =
      ⟨.error ("VM " ++ req.vmId ++ " already exists"), m, [], []⟩ ∧
    createVM cfg env m req = createVM cfg env2 m req := by
  constructor <;> (unfold createVM; rw [h])

/-- C5, witness: duplicate create of `"vm-1"` leaves the registry with
the original record and runs no rollback. -/
theorem createVM_duplicate_id_witness :
    createVM demoCfg demoEnv [("vm-1", demoVM)] ⟨"vm-1", 1, 256, "", "", "", []⟩ =
      ⟨.error "VM vm-1 already exists", [("vm-1", demoVM)], [], []⟩ := by
  have h := createVM_duplicate_id demoCfg demoEnv demoEnv [("vm-1", demoVM)]
    ⟨"vm-1", 1, 256, "", "", "", []⟩ demoVM (by decide)
  rw [h.1]
  decide

/-! ### Claims about the read-side state projection (C6) -/

/-- Well-formedness the registry maintains: every stored record has
recorded state `Running` or `Stopped` and carries a supervisor handle. -/
def RegistryWF (m : Registry) : Prop :=
  ∀ p ∈ m, (p.2.info.state = VMState.running ∨ p.2.info.state = VMState.stopped) ∧
    p.2.process.isSome = true

/-- Case analysis of the configuration phase: either some REST call
failed and the stack unwinds, or all five succeeded and the record is
committed. -/
theorem configurePhase_cases (cfg : ManagerConfig) (env : Env) (vms : Registry)
    (req : CreateVMRequest) (vmStorage : VMStorage) (tapDevice macAddr : String)
    (process : ProcessHandle) (st : List CleanupAction) :
    (∃ e, configurePhase cfg env vms req vmStorage tapDevice macAddr process st =
      ⟨.error e, vms, st, st.reverse⟩) ∨
    configurePhase cfg env vms req vmStorage tapDevice macAddr process st =
      ⟨.ok ⟨req.vmId, .running, req.vcpuCount, req.memoryMb, req.ipAddress,
            vmStorage.socketPath, env.now, req.metadata⟩,
       (req.vmId,
        ⟨⟨req.vmId, .running, req.vcpuCount, req.memoryMb, req.ipAddress,
          vmStorage.socketPath, env.now, req.metadata⟩,
         some process, vmStorage.socketPath, tapDevice, env.now⟩) :: vms,
       st, []⟩ := by
  simp only [configurePhase]
  cases env.setBootSource ⟨vmStorage.kernelPath,
      mkBootArgs req.ipAddress (extractGatewayIP env.parseCIDR cfg.bridgeIP)⟩ with
  | error e => exact Or.inl ⟨_, rfl⟩
  | ok u1 =>
    cases env.setMachineConfig ⟨req.vcpuCount, req.memoryMb, false⟩ with
    | error e => exact Or.inl ⟨_, rfl⟩
    | ok u2 =>
      cases env.addDrive ⟨"rootfs", vmStorage.rootfsPath, true, false⟩ with
      | error e => exact Or.inl ⟨_, rfl⟩
      | ok u3 =>
        cases env.addNetworkInterface ⟨"eth0", tapDevice, macAddr⟩ with
        | error e => exact Or.inl ⟨_, rfl⟩
        | ok u4 =>
          cases env.startInstance with
          | error e => exact Or.inl ⟨_, rfl⟩
          | ok u5 => exact Or.inr rfl

/-- Case analysis of `createVM`: duplicate id, a failure with the stack
run in reverse, or a committed insertion. -/
theorem createVM_cases (cfg : ManagerConfig) (env : Env) (m : Registry)
    (req : CreateVMRequest) :
    (∃ vm, List.lookup req.vmId m = some vm ∧
      createVM cfg env m req = ⟨.error ("VM " ++ req.vmId ++ " already exists"), m, [], []⟩) ∨
    (∃ e st, createVM cfg env m req = ⟨.error e, m, st, st.reverse⟩) ∨
    (∃ process tapDevice vmStorage st,
      createVM cfg env m req =
        ⟨.ok ⟨req.vmId, .running, req.vcpuCount, req.memoryMb, req.ipAddress,
              (vmStorage : VMStorage).socketPath, env.now, req.metadata⟩,
         (req.vmId,
          ⟨⟨req.vmId, .running, req.vcpuCount, req.memoryMb, req.ipAddress,
            vmStorage.socketPath, env.now, req.metadata⟩,
           some (process : ProcessHandle), vmStorage.socketPath, (tapDevice : String),
           env.now⟩) :: m,
         st, []⟩) := by
  unfold createVM
  cases hlook : List.lookup req.vmId m with
  | some vm => exact Or.inl ⟨vm, rfl, rfl⟩
  | none =>
    simp only []
    by_cases hj : cfg.useJailer = some true
    · rw [if_pos hj]
      cases env.setupJail req.vmId (resolvedKernelPath cfg req) (resolvedRootfsPath cfg req) with
      | error e => exact Or.inr (Or.inl ⟨_, [], rfl⟩)
      | ok jailPaths0 =>
        dsimp only
        cases env.createTap req.vmId with
        | error e => exact Or.inr (Or.inl ⟨_, _, rfl⟩)
        | ok tapDevice =>
          dsimp only
          cases env.startJailed cfg.jailerPath req.vmId
              { jailPaths0 with firecrackerBinary := cfg.binaryPath } cfg.jailUID cfg.jailGID with
          | error e => exact Or.inr (Or.inl ⟨_, _, rfl⟩)
          | ok process =>
            dsimp only
            rcases configurePhase_cases cfg env m req
                (jailStorageOf { jailPaths0 with firecrackerBinary := cfg.binaryPath })
                tapDevice (GenerateMAC req.vmId) process
                ([CleanupAction.cleanupJailAndStorage req.vmId] ++
                  [CleanupAction.deleteTap tapDevice] ++
                  [CleanupAction.killProcess process.pid]) with hc | hc
            · exact Or.inr (Or.inl ⟨hc.choose, _, hc.choose_spec⟩)
            · exact Or.inr (Or.inr ⟨process, tapDevice, _, _, hc⟩)
    · rw [if_neg hj]
      cases env.prepareStorage req.vmId (resolvedKernelPath cfg req) (resolvedRootfsPath cfg req) with
      | error e => exact Or.inr (Or.inl ⟨_, [], rfl⟩)
      | ok vmStorage =>
        dsimp only
        cases env.createTap req.vmId with
        | error e => exact Or.inr (Or.inl ⟨_, _, rfl⟩)
        | ok tapDevice =>
          dsimp only
          cases env.startDirect cfg.binaryPath vmStorage.socketPath vmStorage.logPath with
          | error e => exact Or.inr (Or.inl ⟨_, _, rfl⟩)
          | ok process =>
            dsimp only
            rcases configurePhase_cases cfg env m req vmStorage
                tapDevice (GenerateMAC req.vmId) process
                ([CleanupAction.cleanupStorage req.vmId] ++
                  [CleanupAction.deleteTap tapDevice] ++
                  [CleanupAction.killProcess process.pid]) with hc | hc
            · exact Or.inr (Or.inl ⟨hc.choose, _, hc.choose_spec⟩)
            · exact Or.inr (Or.inr ⟨process, tapDevice, _, _, hc⟩)

theorem registryWF_createVM (cfg : ManagerConfig) (env : Env) (m : Registry)
    (req : CreateVMRequest) (h : RegistryWF m) : RegistryWF (createVM cfg env m req).vms := by
  rcases createVM_cases cfg env m req with ⟨vm, _, heq⟩ | ⟨e, st, heq⟩ | ⟨pr, tap, vs, st, heq⟩ <;>
    rw [heq]
  · exact h
  · exact h
  · intro p hp
    rcases List.mem_cons.mp hp with rfl | hmem
    · exact ⟨Or.inl rfl, rfl⟩
    · exact h p hmem

theorem registryWF_stopVM (env : Env) (m : Registry) (vmId : String) (force : Bool)
    (h : RegistryWF m) : RegistryWF (stopVM env m vmId force).2.1 := by
  unfold stopVM
  split
  · exact h
  · intro p hp
    unfold setVMStopped at hp
    rw [List.mem_map] at hp
    obtain ⟨q, hq, hpq⟩ := hp
    by_cases hk : q.1 = vmId
    · rw [if_pos hk] at hpq
      subst hpq
      refine ⟨Or.inr rfl, ?_⟩
      simpa using (h q hq).2
    · rw [if_neg hk] at hpq
      subst hpq
      exact h q hq

theorem registryWF_deleteVM (cfg : ManagerConfig) (m : Registry) (vmId : String)
    (h : RegistryWF m) : RegistryWF (deleteVM cfg m vmId).2.1 := by
  unfold deleteVM
  split
  · exact h
  · intro p hp
    exact h p (List.mem_of_mem_filter hp)

/-- Every reachable registry is well-formed. -/
theorem reachable_registryWF {m : Registry} (h : Reachable m) : RegistryWF m := by
  induction h with
  | empty => intro p hp; cases hp
  | create cfg env req _ ih => exact registryWF_createVM cfg env _ req ih
  | stop env vmId force _ ih => exact registryWF_stopVM env _ vmId force ih
  | delete cfg vmId _ ih => exact registryWF_deleteVM cfg _ vmId ih

theorem lookup_mem (m : Registry) (k : String) (v : VM)
    (h : List.lookup k m = some v) : (k, v) ∈ m := by
  induction m with
  | nil => cases h
  | cons hd tl ih =>
    obtain ⟨k2, v2⟩ := hd
    cases hbeq : k == k2 <;> simp [List.lookup, hbeq] at h
    · exact List.mem_cons_of_mem _ (ih h)
    · rw [show k2 = k from (eq_of_beq hbeq).symm, h]
      exact List.mem_cons_self _ _

/-- C6: on every reachable registry, `GetVM` returns the projection of
the stored record, whose state is `Stopped` exactly when the supervisor
is not running and the recorded state is `Running`, and the recorded
state otherwise; `ListVMs` applies the same projection to every record,
and neither touches the stored records. -/
theorem getVM_state_projection (live : Nat → Bool) (m : Registry) (hm : Reachable m)
    (vmId : String) (vm : VM) (h : List.lookup vmId m = some vm) :
    getVM live m vmId = .ok (copyVMInfo live vm) ∧
    (∀ p, vm.process = some p →
      (copyVMInfo live vm).state =
        (if live p.pid = false ∧ vm.info.state = VMState.running then VMState.stopped
         else vm.info.state)) ∧
    listVMs live m = m.map (fun q => copyVMInfo live q.2) ∧
    vm.process.isSome = true := by
  have hwf := reachable_registryWF hm (vmId, vm) (lookup_mem m vmId vm h)
  refine ⟨?_, ?_, rfl, hwf.2⟩
  · unfold getVM
    rw [h]
  · intro p hp
    have hstate : (copyVMInfo live vm).state = resolveVMState live vm := rfl
    rw [hstate]
    unfold resolveVMState
    rw [hp]
    have hwf1 : vm.info.state = VMState.running ∨ vm.info.state = VMState.stopped := hwf.1
    cases hl : live p.pid <;> rcases hwf1 with h1 | h1 <;> simp [hl, h1]

/-- C6, witness: a freshly created VM with a live supervisor projects as
`Running`. -/
theorem getVM_state_projection_witness :
    getVM (fun _ => true) (createVM demoCfg demoEnv [] demoReq).vms "vm-12345678" =
      .ok ⟨"vm-12345678", VMState.running, 2, 512, "", "/sock", 1700000000, []⟩ := by
  have h := getVM_state_projection (fun _ => true) (createVM demoCfg demoEnv [] demoReq).vms
    (Reachable.create demoCfg demoEnv demoReq Reachable.empty) "vm-12345678"
    ⟨⟨"vm-12345678", VMState.running, 2, 512, "", "/sock", 1700000000, []⟩, some ⟨42⟩, "/sock",
      "vmtap-vm-12345", 1700000000⟩ (by decide)
  rw [h.1]
  decide

/-! ### Claims about transactional create (C1) -/

/-- Characterizes the configuration phase: on success the record built
from the request is committed with an empty executed list; on failure
the stack `st` runs in reverse and the registry is untouched; either
way the result is the first failure of the five REST calls in order. -/
theorem configurePhase_chars (cfg : ManagerConfig) (env : Env) (vms : Registry)
    (req : CreateVMRequest) (vmStorage : VMStorage) (tapDevice macAddr : String)
    (process : ProcessHandle) (st : List CleanupAction) :
    (∀ info, (configurePhase cfg env vms req vmStorage tapDevice macAddr process st).result =
        .ok info →
      configurePhase cfg env vms req vmStorage tapDevice macAddr process st =
        ⟨.ok info, (req.vmId, ⟨info, some process, vmStorage.socketPath, tapDevice, env.now⟩) :: vms,
         st, []⟩ ∧
      firstError (specApiSteps cfg env req vmStorage tapDevice macAddr) = none) ∧
    (∀ e, (configurePhase cfg env vms req vmStorage tapDevice macAddr process st).result =
        .error e →
      configurePhase cfg env vms req vmStorage tapDevice macAddr process st =
        ⟨.error e, vms, st, st.reverse⟩ ∧
      firstError (specApiSteps cfg env req vmStorage tapDevice macAddr) = some e) := by
  cases h1 : env.setBootSource ⟨vmStorage.kernelPath,
      mkBootArgs req.ipAddress (extractGatewayIP env.parseCIDR cfg.bridgeIP)⟩ with
  | error e1 =>
    have heq : configurePhase cfg env vms req vmStorage tapDevice macAddr process st =
        ⟨.error ("failed to set boot source: " ++ e1), vms, st, st.reverse⟩ := by
      simp [configurePhase, h1, unwindFail]
    constructor
    · intro info hinfo; rw [heq] at hinfo; simp at hinfo
    · intro e' he'; rw [heq] at he'
      injection he' with h
      subst h
      exact ⟨heq, by simp [specApiSteps, firstError, List.findSome?, wrapStep, h1]⟩
  | ok u1 =>
    cases h2 : env.setMachineConfig ⟨req.vcpuCount, req.memoryMb, false⟩ with
    | error e2 =>
      have heq : configurePhase cfg env vms req vmStorage tapDevice macAddr process st =
          ⟨.error ("failed to set machine config: " ++ e2), vms, st, st.reverse⟩ := by
        simp [configurePhase, h1, h2, unwindFail]
      constructor
      · intro info hinfo; rw [heq] at hinfo; simp at hinfo
      · intro e' he'; rw [heq] at he'
        injection he' with h
        subst h
        exact ⟨heq, by simp [specApiSteps, firstError, List.findSome?, wrapStep, h1, h2]⟩
    | ok u2 =>
      cases h3 : env.addDrive ⟨"rootfs", vmStorage.rootfsPath, true, false⟩ with
      | error e3 =>
        have heq : configurePhase cfg env vms req vmStorage tapDevice macAddr process st =
            ⟨.error ("failed to add drive: " ++ e3), vms, st, st.reverse⟩ := by
          simp [configurePhase, h1, h2, h3, unwindFail]
        constructor
        · intro info hinfo; rw [heq] at hinfo; simp at hinfo
        · intro e' he'; rw [heq] at he'
          injection he' with h
          subst h
          exact ⟨heq, by simp [specApiSteps, firstError, List.findSome?, wrapStep, h1, h2, h3]⟩
      | ok u3 =>
        cases h4 : env.addNetworkInterface ⟨"eth0", tapDevice, macAddr⟩ with
        | error e4 =>
          have heq : configurePhase cfg env vms req vmStorage tapDevice macAddr process st =
              ⟨.error ("failed to add network interface: " ++ e4), vms, st, st.reverse⟩ := by
            simp [configurePhase, h1, h2, h3, h4, unwindFail]
          constructor
          · intro info hinfo; rw [heq] at hinfo; simp at hinfo
          · intro e' he'; rw [heq] at he'
            injection he' with h
            subst h
            exact ⟨heq,
              by simp [specApiSteps, firstError, List.findSome?, wrapStep, h1, h2, h3, h4]⟩
        | ok u4 =>
          cases h5 : env.startInstance with
          | error e5 =>
            have heq : configurePhase cfg env vms req vmStorage tapDevice macAddr process st =
                ⟨.error ("failed to start instance: " ++ e5), vms, st, st.reverse⟩ := by
              simp [configurePhase, h1, h2, h3, h4, h5, unwindFail]
            constructor
            · intro info hinfo; rw [heq] at hinfo; simp at hinfo
            · intro e' he'; rw [heq] at he'
              injection he' with h
              subst h
              exact ⟨heq,
                by simp [specApiSteps, firstError, List.findSome?, wrapStep, h1, h2, h3, h4, h5]⟩
          | ok u5 =>
            have heq : configurePhase cfg env vms req vmStorage tapDevice macAddr process st =
                ⟨.ok ⟨req.vmId, .running, req.vcpuCount, req.memoryMb, req.ipAddress,
                      vmStorage.socketPath, env.now, req.metadata⟩,
                 (req.vmId, ⟨⟨req.vmId, .running, req.vcpuCount, req.memoryMb, req.ipAddress,
                      vmStorage.socketPath, env.now, req.metadata⟩,
                   some process, vmStorage.socketPath, tapDevice, env.now⟩) :: vms,
                 st, []⟩ := by
              simp [configurePhase, h1, h2, h3, h4, h5]
            constructor
            · intro info hinfo; rw [heq] at hinfo
              injection hinfo with h
              subst h
              exact ⟨heq,
                by simp [specApiSteps, firstError, List.findSome?, wrapStep, h1, h2, h3, h4, h5]⟩
            · intro e' he'; rw [heq] at he'; simp at he'

/-- C1: create is transactional.  For a fresh id: the unwind stack is
always a prefix (in acquisition order) of the stack of rollback actions
of the three resource acquisitions; on success the record is inserted
and no rollback runs; on any failure — including the REST handshake —
the executed rollbacks are exactly the pushed stack in reverse (LIFO),
the registry is unchanged with no record for the id, and the returned
error is the first failure of the steps in program order. -/
theorem createVM_transactional (cfg : ManagerConfig) (env : Env) (m : Registry)
    (req : CreateVMRequest) (hfresh : List.lookup req.vmId m = none) :
    (∃ k, (createVM cfg env m req).pushed = (specAcquiredStack cfg env req).take k) ∧
    (∀ info, (createVM cfg env m req).result = .ok info →
      (createVM cfg env m req).executed = [] ∧
      (∃ vm, vm.info = info ∧ (createVM cfg env m req).vms = (req.vmId, vm) :: m) ∧
      firstError (specStepOutcomes cfg env req) = none) ∧
    (∀ e, (createVM cfg env m req).result = .error e →
      (createVM cfg env m req).executed = ((createVM cfg env m req).pushed).reverse ∧
      (createVM cfg env m req).vms = m ∧
      List.lookup req.vmId (createVM cfg env m req).vms = none ∧
      firstError (specStepOutcomes cfg env req) = some e) := by
  by_cases hj : cfg.useJailer = some true
  · cases hsj : env.setupJail req.vmId (resolvedKernelPath cfg req) (resolvedRootfsPath cfg req) with
    | error e0 =>
      have heq : createVM cfg env m req =
          ⟨.error ("failed to setup jail directory: " ++ e0), m, [], []⟩ := by
        simp [createVM, hfresh, hj, hsj, unwindFail]
      refine ⟨⟨0, by simp [heq]⟩, ?_, ?_⟩
      · intro info hinfo; rw [heq] at hinfo; simp at hinfo
      · intro e' he'; rw [heq] at he'
        injection he' with h; subst h
        refine ⟨by simp [heq], by simp [heq], by simp [heq, hfresh], ?_⟩
        simp [specStepOutcomes, firstError, List.findSome?, wrapStep, Except.map, hj, hsj, Except.toOption, Option.getD]
    | ok jp0 =>
      cases htap : env.createTap req.vmId with
      | error e0 =>
        have heq : createVM cfg env m req =
            ⟨.error ("failed to create TAP device: " ++ e0), m,
             [CleanupAction.cleanupJailAndStorage req.vmId],
             [CleanupAction.cleanupJailAndStorage req.vmId]⟩ := by
          simp [createVM, hfresh, hj, hsj, htap, unwindFail]
        refine ⟨⟨1, ?_⟩, ?_, ?_⟩
        · rw [heq]; simp [specAcquiredStack, hj, hsj, htap, Except.map, Except.toOption, Option.getD]
        · intro info hinfo; rw [heq] at hinfo; simp at hinfo
        · intro e' he'; rw [heq] at he'
          injection he' with h; subst h
          refine ⟨by simp [heq], by simp [heq], by simp [heq, hfresh], ?_⟩
          simp [specStepOutcomes, firstError, List.findSome?, wrapStep, Except.map, hj, hsj, htap, Except.toOption, Option.getD]
      | ok tap =>
        cases hsp : env.startJailed cfg.jailerPath req.vmId
            { jp0 with firecrackerBinary := cfg.binaryPath } cfg.jailUID cfg.jailGID with
        | error e0 =>
          have heq : createVM cfg env m req =
              ⟨.error ("failed to start jailed Firecracker process: " ++ e0), m,
               [CleanupAction.cleanupJailAndStorage req.vmId, CleanupAction.deleteTap tap],
               [CleanupAction.deleteTap tap, CleanupAction.cleanupJailAndStorage req.vmId]⟩ := by
            simp [createVM, hfresh, hj, hsj, htap, hsp, unwindFail]
          refine ⟨⟨2, ?_⟩, ?_, ?_⟩
          · rw [heq]; simp [specAcquiredStack, Except.map, hj, hsj, htap, Except.toOption, Option.getD]
          · intro info hinfo; rw [heq] at hinfo; simp at hinfo
          · intro e' he'; rw [heq] at he'
            injection he' with h; subst h
            refine ⟨by simp [heq], by simp [heq], by simp [heq, hfresh], ?_⟩
            simp [specStepOutcomes, firstError, List.findSome?, wrapStep, Except.map,
              hj, hsj, htap, hsp, Except.toOption, Option.getD]
        | ok process =>
          have heq : createVM cfg env m req =
              configurePhase cfg env m req
                (jailStorageOf { jp0 with firecrackerBinary := cfg.binaryPath }) tap
                (GenerateMAC req.vmId) process
                [CleanupAction.cleanupJailAndStorage req.vmId, CleanupAction.deleteTap tap,
                 CleanupAction.killProcess process.pid] := by
            simp [createVM, hfresh, hj, hsj, htap, hsp]
          have hchars := configurePhase_chars cfg env m req
            (jailStorageOf { jp0 with firecrackerBinary := cfg.binaryPath }) tap
            (GenerateMAC req.vmId) process
            [CleanupAction.cleanupJailAndStorage req.vmId, CleanupAction.deleteTap tap,
             CleanupAction.killProcess process.pid]
          have hsteps : firstError (specStepOutcomes cfg env req) =
              firstError (specApiSteps cfg env req
                (jailStorageOf { jp0 with firecrackerBinary := cfg.binaryPath }) tap
                (GenerateMAC req.vmId)) := by
            simp [specStepOutcomes, firstError, List.findSome?, wrapStep, Except.map,
              hj, hsj, htap, hsp, Except.toOption, Option.getD]
          have hpushed : (configurePhase cfg env m req
              (jailStorageOf { jp0 with firecrackerBinary := cfg.binaryPath }) tap
              (GenerateMAC req.vmId) process
              [CleanupAction.cleanupJailAndStorage req.vmId, CleanupAction.deleteTap tap,
               CleanupAction.killProcess process.pid]).pushed =
              [CleanupAction.cleanupJailAndStorage req.vmId, CleanupAction.deleteTap tap,
               CleanupAction.killProcess process.pid] := by
            cases hres : (configurePhase cfg env m req
                (jailStorageOf { jp0 with firecrackerBinary := cfg.binaryPath }) tap
                (GenerateMAC req.vmId) process
                [CleanupAction.cleanupJailAndStorage req.vmId, CleanupAction.deleteTap tap,
                 CleanupAction.killProcess process.pid]).result with
            | ok info => simp [(hchars.1 info hres).1]
            | error e => simp [(hchars.2 e hres).1]
          refine ⟨⟨3, ?_⟩, ?_, ?_⟩
          · rw [heq, hpushed]
            simp [specAcquiredStack, Except.map, Except.toOption, hj, hsj, htap, hsp, Option.getD]
          · intro info hinfo
            rw [heq] at hinfo
            obtain ⟨hc, hfe⟩ := hchars.1 info hinfo
            refine ⟨by simp [heq, hc], ⟨⟨info, some process,
              (jailStorageOf { jp0 with firecrackerBinary := cfg.binaryPath }).socketPath, tap,
              env.now⟩, rfl, by simp [heq, hc]⟩, ?_⟩
            rw [hsteps]; exact hfe
          · intro e' he'
            rw [heq] at he'
            obtain ⟨hc, hfe⟩ := hchars.2 e' he'
            refine ⟨by simp [heq, hc], by simp [heq, hc], by simp [heq, hc, hfresh], ?_⟩
            rw [hsteps]; exact hfe
  · cases hps : env.prepareStorage req.vmId (resolvedKernelPath cfg req)
        (resolvedRootfsPath cfg req) with
    | error e0 =>
      have heq : createVM cfg env m req =
          ⟨.error ("failed to prepare storage: " ++ e0), m, [], []⟩ := by
        simp [createVM, hfresh, hj, hps, unwindFail]
      refine ⟨⟨0, by simp [heq]⟩, ?_, ?_⟩
      · intro info hinfo; rw [heq] at hinfo; simp at hinfo
      · intro e' he'; rw [heq] at he'
        injection he' with h; subst h
        refine ⟨by simp [heq], by simp [heq], by simp [heq, hfresh], ?_⟩
        simp [specStepOutcomes, firstError, List.findSome?, wrapStep, Except.map, hj, hps, Except.toOption, Option.getD]
    | ok vmStorage =>
      cases htap : env.createTap req.vmId with
      | error e0 =>
        have heq : createVM cfg env m req =
            ⟨.error ("failed to create TAP device: " ++ e0), m,
             [CleanupAction.cleanupStorage req.vmId],
             [CleanupAction.cleanupStorage req.vmId]⟩ := by
          simp [createVM, hfresh, hj, hps, htap, unwindFail]
        refine ⟨⟨1, ?_⟩, ?_, ?_⟩
        · rw [heq]; simp [specAcquiredStack, hj, hps, htap, Except.map, Except.toOption, Option.getD]
        · intro info hinfo; rw [heq] at hinfo; simp at hinfo
        · intro e' he'; rw [heq] at he'
          injection he' with h; subst h
          refine ⟨by simp [heq], by simp [heq], by simp [heq, hfresh], ?_⟩
          simp [specStepOutcomes, firstError, List.findSome?, wrapStep, Except.map, hj, hps, htap, Except.toOption, Option.getD]
      | ok tap =>
        cases hsp : env.startDirect cfg.binaryPath vmStorage.socketPath vmStorage.logPath with
        | error e0 =>
          have heq : createVM cfg env m req =
              ⟨.error ("failed to start Firecracker process: " ++ e0), m,
               [CleanupAction.cleanupStorage req.vmId, CleanupAction.deleteTap tap],
               [CleanupAction.deleteTap tap, CleanupAction.cleanupStorage req.vmId]⟩ := by
            simp [createVM, hfresh, hj, hps, htap, hsp, unwindFail]
          refine ⟨⟨2, ?_⟩, ?_, ?_⟩
          · rw [heq]; simp [specAcquiredStack, Except.map, hj, hps, htap, Except.toOption, Option.getD]
          · intro info hinfo; rw [heq] at hinfo; simp at hinfo
          · intro e' he'; rw [heq] at he'
            injection he' with h; subst h
            refine ⟨by simp [heq], by simp [heq], by simp [heq, hfresh], ?_⟩
            simp [specStepOutcomes, firstError, List.findSome?, wrapStep, Except.map,
              hj, hps, htap, hsp, Except.toOption, Option.getD]
        | ok process =>
          have heq : createVM cfg env m req =
              configurePhase cfg env m req vmStorage tap (GenerateMAC req.vmId) process
                [CleanupAction.cleanupStorage req.vmId, CleanupAction.deleteTap tap,
                 CleanupAction.killProcess process.pid] := by
            simp [createVM, hfresh, hj, hps, htap, hsp]
          have hchars := configurePhase_chars cfg env m req vmStorage tap
            (GenerateMAC req.vmId) process
            [CleanupAction.cleanupStorage req.vmId, CleanupAction.deleteTap tap,
             CleanupAction.killProcess process.pid]
          have hsteps : firstError (specStepOutcomes cfg env req) =
              firstError (specApiSteps cfg env req vmStorage tap (GenerateMAC req.vmId)) := by
            simp [specStepOutcomes, firstError, List.findSome?, wrapStep, Except.map,
              hj, hps, htap, hsp, Except.toOption, Option.getD]
          have hpushed : (configurePhase cfg env m req vmStorage tap (GenerateMAC req.vmId)
              process [CleanupAction.cleanupStorage req.vmId, CleanupAction.deleteTap tap,
               CleanupAction.killProcess process.pid]).pushed =
              [CleanupAction.cleanupStorage req.vmId, CleanupAction.deleteTap tap,
               CleanupAction.killProcess process.pid] := by
            cases hres : (configurePhase cfg env m req vmStorage tap (GenerateMAC req.vmId)
                process [CleanupAction.cleanupStorage req.vmId, CleanupAction.deleteTap tap,
                 CleanupAction.killProcess process.pid]).result with
            | ok info => simp [(hchars.1 info hres).1]
            | error e => simp [(hchars.2 e hres).1]
          refine ⟨⟨3, ?_⟩, ?_, ?_⟩
          · rw [heq, hpushed]
            simp [specAcquiredStack, Except.map, Except.toOption, hj, hps, htap, hsp, Option.getD]
          · intro info hinfo
            rw [heq] at hinfo
            obtain ⟨hc, hfe⟩ := hchars.1 info hinfo
            refine ⟨by simp [heq, hc], ⟨⟨info, some process, vmStorage.socketPath, tap, env.now⟩,
              rfl, by simp [heq, hc]⟩, ?_⟩
            rw [hsteps]; exact hfe
          · intro e' he'
            rw [heq] at he'
            obtain ⟨hc, hfe⟩ := hchars.2 e' he'
            refine ⟨by simp [heq, hc], by simp [heq, hc], by simp [heq, hc, hfresh], ?_⟩
            rw [hsteps]; exact hfe

/-- Environment in which the root-drive REST call is rejected. -/
def demoFailEnv : Env := { demoEnv with addDrive := fun _ => .error "bad drive" }

/-- C1, witness: a create whose `AddDrive` call fails rolls back kill,
TAP delete and storage cleanup in exactly that (reverse) order and
leaves the registry empty. -/
theorem createVM_transactional_witness :
    (createVM demoCfg demoFailEnv [] demoReq).result = .error "failed to add drive: bad drive" ∧
    (createVM demoCfg demoFailEnv [] demoReq).executed =
      ((createVM demoCfg demoFailEnv [] demoReq).pushed).reverse ∧
    (createVM demoCfg demoFailEnv [] demoReq).executed =
      [CleanupAction.killProcess 42, CleanupAction.deleteTap "vmtap-vm-12345",
       CleanupAction.cleanupStorage "vm-12345678"] ∧
    (createVM demoCfg demoFailEnv [] demoReq).vms = [] := by
  have h := createVM_transactional demoCfg demoFailEnv [] demoReq rfl
  have hres : (createVM demoCfg demoFailEnv [] demoReq).result =
      .error "failed to add drive: bad drive" := by decide
  obtain ⟨hexec, hvms, _, _⟩ := h.2.2 _ hres
  exact ⟨hres, hexec, by decide, hvms⟩
